import Mathlib

/-!
Shallow embedding of the ranking and portfolio-balancing engine in
`src/utils/ranking.py` (class `UniversityRanker`).

Modelling conventions:
* Python floats/ints are modelled as `ℚ` (exact arithmetic).
* A Python dict field that may be absent is an `Option`; indexing `d['k']`
  on a missing key raises `KeyError`, modelled by `Except.error "k"`.
* `pandas.to_datetime` and `pandas.Timestamp.now()` are external library
  calls; they are modelled abstractly by a `parse_date : String → Option ℤ`
  argument (day number of a parsed date, `none` when unparseable — the
  `except` branch of `calculate_deadline_score`) and a `today : ℤ` argument
  (the day number of the current clock reading), so that
  `days_remaining = parse_date s - today` mirrors `(deadline - today).days`.
* `round(x, 3)` is modelled as `round (x * 1000) / 1000` over `ℚ`.
  (CPython rounds float ties to even; the two differ only on exact ties at
  multiples of 1/2000, which no boundary stated here touches.)
* `list.sort(key=..., reverse=True)` is a stable descending sort by
  `final_score`; stable sorts have a unique output, so it is embedded as
  `List.insertionSort` (proved stable in Mathlib) on the descending order.
-/

/-- Weight of semantic similarity in `self.weights`. -/
def weight_semantic_similarity : ℚ := 30/100

/-- Weight of acceptance fit in `self.weights`. -/
def weight_acceptance_fit : ℚ := 20/100

/-- Weight of financial fit in `self.weights`. -/
def weight_financial_fit : ℚ := 20/100

/-- Weight of research quality in `self.weights`. -/
def weight_research_quality : ℚ := 15/100

/-- Weight of employment rate in `self.weights`. -/
def weight_employment_rate : ℚ := 10/100

/-- Weight of deadline urgency in `self.weights`. -/
def weight_deadline_urgency : ℚ := 5/100

/-- `UniversityRanker.calculate_acceptance_fit`. -/
def calculate_acceptance_fit (acceptance_rate student_strength : ℚ) : ℚ :=
  let ideal_acceptance := student_strength * 2
  let difference := |acceptance_rate - ideal_acceptance|
  max 0 (1 - difference * 2)

/-- `UniversityRanker.calculate_financial_fit`. -/
def calculate_financial_fit (tuition budget living_cost : ℚ) : ℚ :=
  let total_cost := tuition + living_cost * 12
  if total_cost ≤ budget then 1
  else if total_cost ≤ budget * (115/100) then 80/100
  else if total_cost ≤ budget * (130/100) then 50/100
  else 20/100

/-- `UniversityRanker.calculate_research_score`: `mapping.get(research_output, 0.5)`. -/
def calculate_research_score (research_output : String) : ℚ :=
  if research_output = "Very High" then 1
  else if research_output = "High" then 80/100
  else if research_output = "Good" then 60/100
  else if research_output = "Medium" then 40/100
  else 50/100

/-- The tier table of `UniversityRanker.calculate_deadline_score` as a function
of `days_remaining`. -/
def deadline_score_of_days (days_remaining : ℤ) : ℚ :=
  if days_remaining < 30 then 30/100
  else if days_remaining < 90 then 70/100
  else if days_remaining < 180 then 1
  else 90/100

/-- `UniversityRanker.calculate_deadline_score`: parse the deadline string,
score `days_remaining`; an unparseable date (the `except` branch) yields 0.5. -/
def calculate_deadline_score (parse_date : String → Option ℤ) (today : ℤ)
    (deadline_str : String) : ℚ :=
  match parse_date deadline_str with
  | some deadline => deadline_score_of_days (deadline - today)
  | none => 50/100

/-- Helper for `split_words`: accumulate the current word while scanning. -/
def split_words_aux : List Char → List Char → List (List Char)
  | [], cur => if cur = [] then [] else [cur.reverse]
  | c :: cs, cur =>
    if c.isWhitespace then
      if cur = [] then split_words_aux cs []
      else cur.reverse :: split_words_aux cs []
    else split_words_aux cs (c :: cur)

/-- Python `str.split()` with no separator: split on runs of whitespace,
producing no empty words. -/
def split_words (s : String) : List (List Char) :=
  split_words_aux s.data []

/-- The `student_profile` dict: only the keys read by the ranking engine,
each possibly absent. -/
structure StudentProfile where
  gpa : Option ℚ
  budget : Option ℚ
  work_experience : Option String

/-- `UniversityRanker._calculate_student_strength`: `profile.get('gpa', 3.0)`,
`profile.get('work_experience', '')`, GPA normalized by 4.0 and clamped above
at 1.0, plus a 0.1 bonus (re-clamped) when the work-experience word count
exceeds 5. -/
def _calculate_student_strength (profile : StudentProfile) : ℚ :=
  let gpa := profile.gpa.getD 3
  let work_exp := 5 < (split_words (profile.work_experience.getD "")).length
  let gpa_score := min (gpa / 4) 1
  if work_exp then min (gpa_score + 10/100) 1 else gpa_score

/-- `UniversityRanker._categorize_university`. -/
def _categorize_university (acceptance_fit student_strength : ℚ) : String :=
  if acceptance_fit > 70/100 then "Target"
  else if student_strength > 70/100 ∧ acceptance_fit > 40/100 then "Safety"
  else "Reach"

/-- A candidate university dict: the seven raw keys read by
`rank_universities`, each possibly absent (`none` = missing key). -/
structure Univ where
  similarity_score : Option ℚ
  acceptance_rate : Option ℚ
  tuition_usd : Option ℚ
  living_cost_monthly : Option ℚ
  research_output : Option String
  employment_rate_6mo : Option ℚ
  deadline : Option String

/-- The `scores` dict built per candidate inside `rank_universities`. -/
structure ScoreBreakdown where
  semantic : ℚ
  acceptance_fit : ℚ
  financial_fit : ℚ
  research : ℚ
  employment : ℚ
  deadline : ℚ

/-- The weighted `total_score` expression of `rank_universities`. -/
def weighted_total (s : ScoreBreakdown) : ℚ :=
  s.semantic * weight_semantic_similarity +
  s.acceptance_fit * weight_acceptance_fit +
  s.financial_fit * weight_financial_fit +
  s.research * weight_research_quality +
  s.employment * weight_employment_rate +
  s.deadline * weight_deadline_urgency

/-- `round(x, 3)` over exact rationals. -/
def round3 (x : ℚ) : ℚ := (round (x * 1000) : ℤ) / 1000

/-- A candidate after `rank_universities` augmented it with `final_score`,
`score_breakdown` and `category` (the Python code mutates the dict in place;
here the augmented record carries the original dict in `uni`). -/
structure RankedUniv where
  uni : Univ
  final_score : ℚ
  score_breakdown : ScoreBreakdown
  category : String

/-- The per-candidate body of the loop in `rank_universities`: read the seven
raw keys (raising `KeyError`, i.e. `Except.error key`, on the first missing
one, in the evaluation order of the `scores` dict literal), build the score
breakdown, the rounded weighted total and the category. -/
def score_university (parse_date : String → Option ℤ) (today : ℤ)
    (student_strength budget : ℚ) (uni : Univ) : Except String RankedUniv :=
  match uni.similarity_score with
  | none => Except.error "similarity_score"
  | some semantic =>
    match uni.acceptance_rate with
    | none => Except.error "acceptance_rate"
    | some acceptance_rate =>
      match uni.tuition_usd with
      | none => Except.error "tuition_usd"
      | some tuition =>
        match uni.living_cost_monthly with
        | none => Except.error "living_cost_monthly"
        | some living_cost =>
          match uni.research_output with
          | none => Except.error "research_output"
          | some research_output =>
            match uni.employment_rate_6mo with
            | none => Except.error "employment_rate_6mo"
            | some employment =>
              match uni.deadline with
              | none => Except.error "deadline"
              | some deadline_str =>
                let scores : ScoreBreakdown :=
                  { semantic := semantic
                    acceptance_fit :=
                      calculate_acceptance_fit acceptance_rate student_strength
                    financial_fit :=
                      calculate_financial_fit tuition budget living_cost
                    research := calculate_research_score research_output
                    employment := employment
                    deadline :=
                      calculate_deadline_score parse_date today deadline_str }
                Except.ok
                  { uni := uni
                    final_score := round3 (weighted_total scores)
                    score_breakdown := scores
                    category :=
                      _categorize_university scores.acceptance_fit
                        student_strength }

/-- The `for uni in universities` loop of `rank_universities`: process the
candidates in order; the first `KeyError` aborts the whole call. -/
def score_all (parse_date : String → Option ℤ) (today : ℤ)
    (student_strength budget : ℚ) : List Univ → Except String (List RankedUniv)
  | [] => Except.ok []
  | u :: rest =>
    match score_university parse_date today student_strength budget u with
    | Except.error e => Except.error e
    | Except.ok r =>
      match score_all parse_date today student_strength budget rest with
      | Except.error e => Except.error e
      | Except.ok rs => Except.ok (r :: rs)

/-- The descending-by-`final_score` order used by
`universities.sort(key=lambda x: x['final_score'], reverse=True)`. -/
def byScoreDesc (a b : RankedUniv) : Prop := b.final_score ≤ a.final_score

instance : DecidableRel byScoreDesc :=
  fun a b => inferInstanceAs (Decidable (b.final_score ≤ a.final_score))

instance : IsTotal RankedUniv byScoreDesc :=
  ⟨fun a b => le_total b.final_score a.final_score⟩

instance : IsTrans RankedUniv byScoreDesc :=
  ⟨fun _ _ _ h1 h2 => le_trans h2 h1⟩

/-- `UniversityRanker.rank_universities`: compute student strength once, read
`budget` with default 50000, score every candidate, then stable-sort
descending by `final_score`. -/
def rank_universities (parse_date : String → Option ℤ) (today : ℤ)
    (universities : List Univ) (student_profile : StudentProfile) :
    Except String (List RankedUniv) :=
  let student_strength := _calculate_student_strength student_profile
  let budget := student_profile.budget.getD 50000
  match score_all parse_date today student_strength budget universities with
  | Except.error e => Except.error e
  | Except.ok scored => Except.ok (scored.insertionSort byScoreDesc)

/-- `UniversityRanker.balance_portfolio`: filter by category, take the first
3 Reach, first 4 Target, first 3 Safety, concatenated in that order. -/
def balance_portfolio (universities : List RankedUniv) : List RankedUniv :=
  let reach := universities.filter (fun u => u.category == "Reach")
  let target := universities.filter (fun u => u.category == "Target")
  let safety := universities.filter (fun u => u.category == "Safety")
  reach.take 3 ++ target.take 4 ++ safety.take 3

/-- C7: acceptance fit equals `max 0 (1 - 2*|a - 2s|)`; it is exactly 1 at
`a = 2s`, exactly 0 at offset `± 1/2`, and 0 whenever `1/2 ≤ |a - 2s|`. -/
theorem C7_acceptance_fit_formula (a s : ℚ) :
    calculate_acceptance_fit a s = max 0 (1 - 2 * |a - 2 * s|) ∧
    calculate_acceptance_fit (2 * s) s = 1 ∧
    calculate_acceptance_fit (2 * s + 1/2) s = 0 ∧
    calculate_acceptance_fit (2 * s - 1/2) s = 0 ∧
    (1/2 ≤ |a - 2 * s| → calculate_acceptance_fit a s = 0) := by
  refine ⟨?_, ?_, ?_, ?_, fun h => ?_⟩ <;> simp only [calculate_acceptance_fit]
  · rw [show a - s * 2 = a - 2 * s by ring, show |a - 2 * s| * 2 = 2 * |a - 2 * s| by ring]
  · rw [show 2 * s - s * 2 = (0:ℚ) by ring]
    norm_num
  · rw [show 2 * s + 1/2 - s * 2 = (1:ℚ)/2 by ring,
      show |(1:ℚ)/2| = 1/2 from abs_of_nonneg (by norm_num)]
    norm_num
  · rw [show 2 * s - 1/2 - s * 2 = (-1:ℚ)/2 by ring,
      show |(-1:ℚ)/2| = 1/2 by rw [abs_of_nonpos (by norm_num)]; norm_num]
    norm_num
  · rw [show a - s * 2 = a - 2 * s by ring]
    have h2 : 1 - |a - 2 * s| * 2 ≤ 0 := by linarith
    exact max_eq_left h2

/-- C7 witness: the zero-threshold clause instantiated at `a = 1`, `s = 0`. -/
theorem C7_witness : calculate_acceptance_fit 1 0 = 0 := by
  have h := (C7_acceptance_fit_formula 1 0).2.2.2.2
  norm_num at h
  simpa using h

/-- C5: financial fit is tiered on `total_cost = tuition + 12*living_cost`
against the budget, tiers inclusive of their upper bound, first match
winning; `total_cost = 1.16*budget` scores 0.5 and `1.31*budget` scores
0.2 (for a positive budget). -/
theorem C5_financial_fit_tiers (t b l : ℚ) (hb : 0 < b) :
    (t + l * 12 ≤ b → calculate_financial_fit t b l = 1) ∧
    (b < t + l * 12 → t + l * 12 ≤ b * (115/100) →
      calculate_financial_fit t b l = 80/100) ∧
    (b * (115/100) < t + l * 12 → t + l * 12 ≤ b * (130/100) →
      calculate_financial_fit t b l = 50/100) ∧
    (b * (130/100) < t + l * 12 → calculate_financial_fit t b l = 20/100) ∧
    (t + l * 12 = b * (116/100) → calculate_financial_fit t b l = 50/100) ∧
    (t + l * 12 = b * (131/100) → calculate_financial_fit t b l = 20/100) := by
  refine ⟨fun h => ?_, fun h1 h2 => ?_, fun h1 h2 => ?_, fun h => ?_,
    fun h => ?_, fun h => ?_⟩ <;>
  · simp only [calculate_financial_fit]
    split_ifs <;> first | rfl | linarith

/-- C5 witness: `tuition = 116`, `budget = 100`, `living_cost = 0` is the
`1.16 × budget` boundary and scores 0.5. -/
theorem C5_witness : calculate_financial_fit 116 100 0 = 50/100 :=
  (C5_financial_fit_tiers 116 100 0 (by norm_num)).2.2.2.2.1 (by norm_num)

/-- C6: the deadline tiers are `< 30 → 0.3`, `30 ≤ _ < 90 → 0.7`,
`90 ≤ _ < 180 → 1.0`, `≥ 180 → 0.9` (boundary values 29, 30, 89, 90, 179,
180 as stated); an unparseable deadline yields 0.5, the score is a total
function of the parse result (never an error), and every output is one of
the five constants. -/
theorem C6_deadline_tiers (d : ℤ) (parse_date : String → Option ℤ)
    (today : ℤ) (s : String) :
    deadline_score_of_days 29 = 30/100 ∧
    deadline_score_of_days 30 = 70/100 ∧
    deadline_score_of_days 89 = 70/100 ∧
    deadline_score_of_days 90 = 1 ∧
    deadline_score_of_days 179 = 1 ∧
    deadline_score_of_days 180 = 90/100 ∧
    (d < 30 → deadline_score_of_days d = 30/100) ∧
    (30 ≤ d → d < 90 → deadline_score_of_days d = 70/100) ∧
    (90 ≤ d → d < 180 → deadline_score_of_days d = 1) ∧
    (180 ≤ d → deadline_score_of_days d = 90/100) ∧
    (parse_date s = none → calculate_deadline_score parse_date today s = 1/2) ∧
    (∀ dl, parse_date s = some dl →
      calculate_deadline_score parse_date today s =
        deadline_score_of_days (dl - today)) ∧
    (calculate_deadline_score parse_date today s = 30/100 ∨
     calculate_deadline_score parse_date today s = 1/2 ∨
     calculate_deadline_score parse_date today s = 70/100 ∨
     calculate_deadline_score parse_date today s = 90/100 ∨
     calculate_deadline_score parse_date today s = 1) := by
  refine ⟨by norm_num [deadline_score_of_days], by norm_num [deadline_score_of_days],
    by norm_num [deadline_score_of_days], by norm_num [deadline_score_of_days],
    by norm_num [deadline_score_of_days], by norm_num [deadline_score_of_days],
    fun h => ?_, fun h1 h2 => ?_, fun h1 h2 => ?_, fun h => ?_,
    fun h => ?_, fun dl h => ?_, ?_⟩
  · simp only [deadline_score_of_days]
    split_ifs <;> first | rfl | omega
  · simp only [deadline_score_of_days]
    split_ifs <;> first | rfl | omega
  · simp only [deadline_score_of_days]
    split_ifs <;> first | rfl | omega
  · simp only [deadline_score_of_days]
    split_ifs <;> first | rfl | omega
  · simp only [calculate_deadline_score, h]
    norm_num
  · simp [calculate_deadline_score, h]
  · cases hp : parse_date s with
    | none =>
      simp only [calculate_deadline_score, hp]
      right; left; norm_num
    | some dl =>
      simp only [calculate_deadline_score, hp, deadline_score_of_days]
      split_ifs <;> tauto

/-- C6 witness: the first tier at `days_remaining = 29`. -/
theorem C6_witness : deadline_score_of_days 29 = 30/100 :=
  (C6_deadline_tiers 29 (fun _ => none) 0 "").1

/-- C4: categorization returns Target when `acceptance_fit > 0.7` (so 0.75
is always Target, for every student strength), otherwise Safety when
`student_strength > 0.7` and `acceptance_fit > 0.4`, otherwise Reach. -/
theorem C4_categorize_priority (a s : ℚ) :
    (70/100 < a → _categorize_university a s = "Target") ∧
    (a ≤ 70/100 → 70/100 < s → 40/100 < a → _categorize_university a s = "Safety") ∧
    (a ≤ 70/100 → ¬(70/100 < s ∧ 40/100 < a) → _categorize_university a s = "Reach") ∧
    _categorize_university (75/100) s = "Target" := by
  refine ⟨fun h => ?_, fun h1 h2 h3 => ?_, fun h1 h2 => ?_, ?_⟩ <;>
    simp only [_categorize_university, gt_iff_lt]
  · rw [if_pos h]
  · rw [if_neg (by linarith), if_pos ⟨h2, h3⟩]
  · rw [if_neg (by linarith), if_neg h2]
  · norm_num

/-- C4 witness: `acceptance_fit = 0.75` with `student_strength = 0` is
Target. -/
theorem C4_witness : _categorize_university (75/100) 0 = "Target" :=
  (C4_categorize_priority (75/100) 0).1 (by norm_num)

/-- C8: student strength is `min (gpa/4) 1`, plus a 0.1 bonus re-clamped at
1 when the work-experience word count exceeds 5; a GPA of 4 or more always
yields exactly 1 (clamped before the bonus), while a negative GPA is not
clamped below and produces a negative strength. -/
theorem C8_student_strength (p : StudentProfile) (g : ℚ) (b : Option ℚ)
    (w : String) :
    _calculate_student_strength p =
      (if 5 < (split_words (p.work_experience.getD "")).length
       then min (min (p.gpa.getD 3 / 4) 1 + 10/100) 1
       else min (p.gpa.getD 3 / 4) 1) ∧
    (4 ≤ g → _calculate_student_strength ⟨some g, b, some w⟩ = 1) ∧
    (g < 0 → _calculate_student_strength ⟨some g, b, some ""⟩ = g / 4 ∧
      _calculate_student_strength ⟨some g, b, some ""⟩ < 0) := by
  refine ⟨rfl, fun hg => ?_, fun hg => ?_⟩
  · have h1 : min (g / 4) 1 = 1 := min_eq_right (by linarith)
    simp only [_calculate_student_strength, Option.getD_some, h1]
    split_ifs
    · exact min_eq_right (by norm_num)
    · rfl
  · have hsplit : split_words "" = [] := rfl
    have h1 : min (g / 4) 1 = g / 4 := min_eq_left (by linarith)
    constructor
    · simp only [_calculate_student_strength, Option.getD_some, hsplit, h1]
      norm_num
    · simp only [_calculate_student_strength, Option.getD_some, hsplit, h1]
      norm_num
      linarith

/-- C8 witness: GPA 5 with a long work-experience string clamps to exactly
1. -/
theorem C8_witness :
    _calculate_student_strength ⟨some 5, none, some "a b c d e f g"⟩ = 1 :=
  (C8_student_strength ⟨none, none, none⟩ 5 none "a b c d e f g").2.1 (by norm_num)

/-- C3: `balance_portfolio` is exactly the first 3 Reach-labelled, then the
first 4 Target-labelled, then the first 3 Safety-labelled candidates in
input order (no re-sorting, no backfill), hence at most 10 items, and empty
on empty input. -/
theorem C3_balance_portfolio (us : List RankedUniv) :
    balance_portfolio us =
      (us.filter (fun u => u.category == "Reach")).take 3 ++
      (us.filter (fun u => u.category == "Target")).take 4 ++
      (us.filter (fun u => u.category == "Safety")).take 3 ∧
    (balance_portfolio us).length ≤ 10 ∧
    balance_portfolio [] = [] := by
  refine ⟨rfl, ?_, rfl⟩
  have h1 := List.length_take_le 3 (us.filter (fun u => u.category == "Reach"))
  have h2 := List.length_take_le 4 (us.filter (fun u => u.category == "Target"))
  have h3 := List.length_take_le 3 (us.filter (fun u => u.category == "Safety"))
  simp only [balance_portfolio, List.length_append]
  omega

/-- Inversion for a successful `score_university` call: the result keeps the
input dict and its `final_score` is the rounded weighted total of its own
breakdown. -/
theorem score_university_ok (f : String → Option ℤ) (t : ℤ) (s b : ℚ)
    (u : Univ) (r : RankedUniv)
    (h : score_university f t s b u = Except.ok r) :
    r.uni = u ∧ r.final_score = round3 (weighted_total r.score_breakdown) := by
  cases e1 : u.similarity_score with
  | none => simp only [score_university, e1] at h; exact Except.noConfusion h
  | some v1 =>
    cases e2 : u.acceptance_rate with
    | none => simp only [score_university, e1, e2] at h; exact Except.noConfusion h
    | some v2 =>
      cases e3 : u.tuition_usd with
      | none => simp only [score_university, e1, e2, e3] at h; exact Except.noConfusion h
      | some v3 =>
        cases e4 : u.living_cost_monthly with
        | none => simp only [score_university, e1, e2, e3, e4] at h; exact Except.noConfusion h
        | some v4 =>
          cases e5 : u.research_output with
          | none => simp only [score_university, e1, e2, e3, e4, e5] at h; exact Except.noConfusion h
          | some v5 =>
            cases e6 : u.employment_rate_6mo with
            | none => simp only [score_university, e1, e2, e3, e4, e5, e6] at h; exact Except.noConfusion h
            | some v6 =>
              cases e7 : u.deadline with
              | none => simp only [score_university, e1, e2, e3, e4, e5, e6, e7] at h; exact Except.noConfusion h
              | some v7 =>
                simp only [score_university, e1, e2, e3, e4, e5, e6, e7,
                  Except.ok.injEq] at h
                subst h
                exact ⟨rfl, rfl⟩

/-- A successfully scored record scores back to itself from its own `uni`
field. -/
theorem score_university_roundtrip (f : String → Option ℤ) (t : ℤ) (s b : ℚ)
    (u : Univ) (r : RankedUniv)
    (h : score_university f t s b u = Except.ok r) :
    score_university f t s b r.uni = Except.ok r := by
  rw [(score_university_ok f t s b u r h).1]
  exact h

/-- Every record produced by a successful `score_all` run scores back to
itself. -/
theorem score_all_ok_mem (f : String → Option ℤ) (t : ℤ) (s b : ℚ) :
    ∀ (us : List Univ) (rs : List RankedUniv),
      score_all f t s b us = Except.ok rs →
      ∀ r ∈ rs, score_university f t s b r.uni = Except.ok r := by
  intro us
  induction us with
  | nil =>
    intro rs h r hr
    simp only [score_all, Except.ok.injEq] at h
    subst h
    simp at hr
  | cons u rest ih =>
    intro rs h r hr
    simp only [score_all] at h
    split at h
    · exact absurd h (by simp)
    · rename_i r0 heq0
      split at h
      · exact absurd h (by simp)
      · rename_i rs0 heq1
        simp only [Except.ok.injEq] at h
        subst h
        rcases List.mem_cons.mp hr with hr0 | hr1
        · subst hr0
          exact score_university_roundtrip f t s b u r heq0
        · exact ih rs0 heq1 r hr1

/-- Rebuilding `score_all` from records that each score back to themselves. -/
theorem score_all_map_uni (f : String → Option ℤ) (t : ℤ) (s b : ℚ)
    (l : List RankedUniv)
    (h : ∀ r ∈ l, score_university f t s b r.uni = Except.ok r) :
    score_all f t s b (l.map RankedUniv.uni) = Except.ok l := by
  induction l with
  | nil => rfl
  | cons r rest ih =>
    have h1 := h r (List.mem_cons_self r rest)
    have h2 : score_all f t s b (rest.map RankedUniv.uni) = Except.ok rest :=
      ih (fun x hx => h x (List.mem_cons_of_mem r hx))
    simp only [List.map_cons, score_all, h1, h2]

/-- When all seven raw keys are present, `score_university` succeeds. -/
theorem score_university_ok_of_isSome (f : String → Option ℤ) (t : ℤ)
    (s b : ℚ) (u : Univ)
    (h : u.similarity_score.isSome ∧ u.acceptance_rate.isSome ∧
      u.tuition_usd.isSome ∧ u.living_cost_monthly.isSome ∧
      u.research_output.isSome ∧ u.employment_rate_6mo.isSome ∧
      u.deadline.isSome) :
    ∃ r, score_university f t s b u = Except.ok r := by
  obtain ⟨h1, h2, h3, h4, h5, h6, h7⟩ := h
  obtain ⟨v1, e1⟩ := Option.isSome_iff_exists.mp h1
  obtain ⟨v2, e2⟩ := Option.isSome_iff_exists.mp h2
  obtain ⟨v3, e3⟩ := Option.isSome_iff_exists.mp h3
  obtain ⟨v4, e4⟩ := Option.isSome_iff_exists.mp h4
  obtain ⟨v5, e5⟩ := Option.isSome_iff_exists.mp h5
  obtain ⟨v6, e6⟩ := Option.isSome_iff_exists.mp h6
  obtain ⟨v7, e7⟩ := Option.isSome_iff_exists.mp h7
  simp only [score_university, e1, e2, e3, e4, e5, e6, e7]
  exact ⟨_, rfl⟩

/-- When all raw keys of every candidate are present, the whole loop
succeeds and produces one record per candidate. -/
theorem score_all_ok_of_isSome (f : String → Option ℤ) (t : ℤ) (s b : ℚ) :
    ∀ us : List Univ,
      (∀ u ∈ us, u.similarity_score.isSome ∧ u.acceptance_rate.isSome ∧
        u.tuition_usd.isSome ∧ u.living_cost_monthly.isSome ∧
        u.research_output.isSome ∧ u.employment_rate_6mo.isSome ∧
        u.deadline.isSome) →
      ∃ rs, score_all f t s b us = Except.ok rs ∧ rs.length = us.length := by
  intro us
  induction us with
  | nil => exact fun _ => ⟨[], rfl, rfl⟩
  | cons u rest ih =>
    intro h
    obtain ⟨r, hr⟩ :=
      score_university_ok_of_isSome f t s b u (h u (List.mem_cons_self u rest))
    obtain ⟨rs, hrs, hlen⟩ := ih (fun x hx => h x (List.mem_cons_of_mem u hx))
    refine ⟨r :: rs, ?_, by simp [hlen]⟩
    simp only [score_all, hr, hrs]

/-- If `x * 1000` is the integer `n`, then `round3 x = n / 1000`. -/
theorem round3_eq_of_mul (x : ℚ) (n : ℤ) (h : x * 1000 = (n : ℚ)) :
    round3 x = (n : ℚ) / 1000 := by
  rw [round3, h, round_intCast]

/-- Student strength of the empty profile: defaults `gpa = 3.0` and
`work_experience = ''` give `min (3/4) 1 = 3/4`. -/
theorem strength_empty_profile :
    _calculate_student_strength ⟨none, none, none⟩ = 3/4 := by
  show min ((3:ℚ)/4) 1 = 3/4
  exact min_eq_left (by norm_num)

/-- A candidate dict lacking the `tuition_usd` key (all other keys present). -/
def u_missing_tuition : Univ :=
  { similarity_score := some (92/100)
    acceptance_rate := some (4/100)
    tuition_usd := none
    living_cost_monthly := some 2000
    research_output := some "Very High"
    employment_rate_6mo := some (95/100)
    deadline := some "2026-01-15" }

/-- C1 counterexample: one candidate with a missing `tuition_usd` key makes
the whole `rank_universities` call fail with a `KeyError` — the missing
tuition is not treated as 0 and no neutral default is substituted. -/
theorem C1_counterexample :
    rank_universities (fun _ => none) 0 [u_missing_tuition] ⟨none, none, none⟩ =
      Except.error "tuition_usd" := rfl

/-- C1 (amended): a present-but-malformed `research_output` or `deadline`
string degrades to the neutral 0.5 sub-score, and the ranking call completes
whenever every candidate has all seven raw keys present — but a missing raw
key raises a `KeyError` that fails the whole ranking call. -/
theorem C1_rank_completes_of_keys_present (f : String → Option ℤ) (t : ℤ)
    (us : List Univ) (p : StudentProfile) (lbl dl : String)
    (h : ∀ u ∈ us, u.similarity_score.isSome ∧ u.acceptance_rate.isSome ∧
      u.tuition_usd.isSome ∧ u.living_cost_monthly.isSome ∧
      u.research_output.isSome ∧ u.employment_rate_6mo.isSome ∧
      u.deadline.isSome)
    (hlbl : lbl ∉ ["Very High", "High", "Good", "Medium"])
    (hdl : f dl = none) :
    (∃ rs, rank_universities f t us p = Except.ok rs ∧ rs.length = us.length) ∧
    calculate_research_score lbl = 1/2 ∧
    calculate_deadline_score f t dl = 1/2 := by
  refine ⟨?_, ?_, ?_⟩
  · obtain ⟨rs, hrs, hlen⟩ :=
      score_all_ok_of_isSome f t (_calculate_student_strength p)
        (p.budget.getD 50000) us h
    refine ⟨rs.insertionSort byScoreDesc, ?_, ?_⟩
    · simp only [rank_universities, hrs]
    · rw [List.length_insertionSort]
      exact hlen
  · simp only [List.mem_cons, List.mem_singleton, not_or] at hlbl
    obtain ⟨n1, n2, n3, n4, _⟩ := hlbl
    simp only [calculate_research_score, if_neg n1, if_neg n2, if_neg n3, if_neg n4]
    norm_num
  · simp only [calculate_deadline_score, hdl]
    norm_num

/-- C1 witness: a fully-populated candidate with an unknown research label
and an unparseable deadline still ranks successfully. -/
theorem C1_witness :
    (∃ rs, rank_universities (fun _ => none) 0
        [{ similarity_score := some (1/2), acceptance_rate := some (1/2),
           tuition_usd := some 1000, living_cost_monthly := some 100,
           research_output := some "garbage", employment_rate_6mo := some (1/2),
           deadline := some "not-a-date" }] ⟨none, none, none⟩ =
        Except.ok rs ∧ rs.length = 1) ∧
    calculate_research_score "garbage" = 1/2 ∧
    calculate_deadline_score (fun _ => none) 0 "not-a-date" = 1/2 :=
  C1_rank_completes_of_keys_present (fun _ => none) 0 _ _ "garbage" "not-a-date"
    (by intro u hu; rw [List.mem_singleton] at hu; subst hu
        exact ⟨rfl, rfl, rfl, rfl, rfl, rfl, rfl⟩)
    (by decide) rfl

/-- C2: the six weights sum to exactly 1; every successfully scored
candidate's `final_score` is the 3-decimal rounding of the weighted sum of
its own sub-scores; and a breakdown whose six sub-scores all equal 0.5 has
composite exactly 0.5. -/
theorem C2_composite_weights (f : String → Option ℤ) (t : ℤ) (s b : ℚ)
    (u : Univ) (r : RankedUniv) (sb : ScoreBreakdown) :
    weight_semantic_similarity + weight_acceptance_fit + weight_financial_fit +
      weight_research_quality + weight_employment_rate +
      weight_deadline_urgency = 1 ∧
    (score_university f t s b u = Except.ok r →
      r.final_score = round3 (weighted_total r.score_breakdown)) ∧
    (sb.semantic = 1/2 → sb.acceptance_fit = 1/2 → sb.financial_fit = 1/2 →
      sb.research = 1/2 → sb.employment = 1/2 → sb.deadline = 1/2 →
      round3 (weighted_total sb) = 1/2) := by
  refine ⟨?_, fun h => (score_university_ok f t s b u r h).2,
    fun h1 h2 h3 h4 h5 h6 => ?_⟩
  · norm_num [weight_semantic_similarity, weight_acceptance_fit,
      weight_financial_fit, weight_research_quality, weight_employment_rate,
      weight_deadline_urgency]
  · have hm : weighted_total sb * 1000 = ((500 : ℤ) : ℚ) := by
      simp only [weighted_total, h1, h2, h3, h4, h5, h6]
      norm_num [weight_semantic_similarity, weight_acceptance_fit,
        weight_financial_fit, weight_research_quality, weight_employment_rate,
        weight_deadline_urgency]
    rw [round3_eq_of_mul _ 500 hm]
    norm_num

/-- C2 witness: the all-neutral breakdown composes to exactly 0.5. -/
theorem C2_witness :
    round3 (weighted_total ⟨1/2, 1/2, 1/2, 1/2, 1/2, 1/2⟩) = 1/2 :=
  (C2_composite_weights (fun _ => none) 0 0 0
    ⟨none, none, none, none, none, none, none⟩
    ⟨⟨none, none, none, none, none, none, none⟩, 0, ⟨0, 0, 0, 0, 0, 0⟩, "Reach"⟩
    ⟨1/2, 1/2, 1/2, 1/2, 1/2, 1/2⟩).2.2 rfl rfl rfl rfl rfl rfl

/-- C10: a profile missing `budget`, `gpa` and `work_experience` ranks
exactly like one with `budget = 50000`, `gpa = 3.0` and empty work
experience, and its student strength is `min (3/4) 1 = 3/4` with no
work-experience bonus. -/
theorem C10_profile_defaults (f : String → Option ℤ) (t : ℤ) (us : List Univ) :
    rank_universities f t us ⟨none, none, none⟩ =
      rank_universities f t us ⟨some 3, some 50000, some ""⟩ ∧
    _calculate_student_strength ⟨none, none, none⟩ = 3/4 :=
  ⟨rfl, strength_empty_profile⟩

/-- A date parser that resolves every string to day number 100 (standing for
`pandas.to_datetime` on a fixed deadline string). -/
def parse_example : String → Option ℤ := fun _ => some 100

/-- A fully-populated candidate whose deadline parses to day 100. -/
def u_example : Univ :=
  { similarity_score := some (1/2)
    acceptance_rate := some (3/2)
    tuition_usd := some 0
    living_cost_monthly := some 0
    research_output := some "High"
    employment_rate_6mo := some (1/2)
    deadline := some "2026-01-15" }

/-- The record `rank_universities` produces for `u_example` when the clock
reads day 71 (29 days remaining, deadline sub-score 0.3). -/
def r_example_71 : RankedUniv :=
  { uni := u_example
    final_score := 735/1000
    score_breakdown := ⟨1/2, 1, 1, 80/100, 1/2, 30/100⟩
    category := "Target" }

/-- The record `rank_universities` produces for `u_example` when the clock
reads day 70 (30 days remaining, deadline sub-score 0.7). -/
def r_example_70 : RankedUniv :=
  { uni := u_example
    final_score := 755/1000
    score_breakdown := ⟨1/2, 1, 1, 80/100, 1/2, 70/100⟩
    category := "Target" }

/-- Acceptance fit of `u_example` against the default-strength student. -/
theorem acc_fit_example : calculate_acceptance_fit (3/2) (3/4) = 1 := by
  simp only [calculate_acceptance_fit]
  rw [show (3:ℚ)/2 - 3/4 * 2 = 0 by ring]
  norm_num

/-- Financial fit of `u_example` against the default budget. -/
theorem fin_fit_example : calculate_financial_fit 0 50000 0 = 1 := by
  simp only [calculate_financial_fit]
  norm_num

/-- Research score of the label `High`. -/
theorem res_example : calculate_research_score "High" = 80/100 := by
  simp only [calculate_research_score]
  rw [if_neg (by decide)]
  simp

/-- Category of `u_example` for the default-strength student. -/
theorem cat_example : _categorize_university 1 (3/4) = "Target" := by
  simp only [_categorize_university, gt_iff_lt]
  rw [if_pos (by norm_num)]

/-- Deadline score of `u_example` at clock day 71: 29 days remaining. -/
theorem dl_example_71 :
    calculate_deadline_score parse_example 71 "2026-01-15" = 30/100 := by
  simp only [calculate_deadline_score, parse_example, deadline_score_of_days]
  norm_num

/-- Deadline score of `u_example` at clock day 70: 30 days remaining. -/
theorem dl_example_70 :
    calculate_deadline_score parse_example 70 "2026-01-15" = 70/100 := by
  simp only [calculate_deadline_score, parse_example, deadline_score_of_days]
  norm_num

/-- Composite score of `u_example` at clock day 71. -/
theorem fs_example_71 :
    round3 (weighted_total ⟨1/2, 1, 1, 80/100, 1/2, 30/100⟩) = 735/1000 := by
  have hm : weighted_total ⟨1/2, 1, 1, 80/100, 1/2, 30/100⟩ * 1000 =
      ((735 : ℤ) : ℚ) := by
    norm_num [weighted_total, weight_semantic_similarity, weight_acceptance_fit,
      weight_financial_fit, weight_research_quality, weight_employment_rate,
      weight_deadline_urgency]
  rw [round3_eq_of_mul _ 735 hm]
  norm_num

/-- Composite score of `u_example` at clock day 70. -/
theorem fs_example_70 :
    round3 (weighted_total ⟨1/2, 1, 1, 80/100, 1/2, 70/100⟩) = 755/1000 := by
  have hm : weighted_total ⟨1/2, 1, 1, 80/100, 1/2, 70/100⟩ * 1000 =
      ((755 : ℤ) : ℚ) := by
    norm_num [weighted_total, weight_semantic_similarity, weight_acceptance_fit,
      weight_financial_fit, weight_research_quality, weight_employment_rate,
      weight_deadline_urgency]
  rw [round3_eq_of_mul _ 755 hm]
  norm_num

/-- Scoring `u_example` at clock day 71. -/
theorem score_eval_71 :
    score_university parse_example 71 (3/4) 50000 u_example =
      Except.ok r_example_71 := by
  simp only [score_university, u_example, acc_fit_example, fin_fit_example,
    res_example, dl_example_71, cat_example, fs_example_71, r_example_71]

/-- Scoring `u_example` at clock day 70. -/
theorem score_eval_70 :
    score_university parse_example 70 (3/4) 50000 u_example =
      Except.ok r_example_70 := by
  simp only [score_university, u_example, acc_fit_example, fin_fit_example,
    res_example, dl_example_70, cat_example, fs_example_70, r_example_70]

/-- Ranking `[u_example]` with the empty profile at clock day 71. -/
theorem rank_eval_71 :
    rank_universities parse_example 71 [u_example] ⟨none, none, none⟩ =
      Except.ok [r_example_71] := by
  simp only [rank_universities, strength_empty_profile]
  have hb : (Option.none).getD (50000:ℚ) = 50000 := rfl
  simp only [hb, score_all, score_eval_71]
  rfl

/-- Ranking `[u_example]` with the empty profile at clock day 70. -/
theorem rank_eval_70 :
    rank_universities parse_example 70 [u_example] ⟨none, none, none⟩ =
      Except.ok [r_example_70] := by
  simp only [rank_universities, strength_empty_profile]
  have hb : (Option.none).getD (50000:ℚ) = 50000 := rfl
  simp only [hb, score_all, score_eval_70]
  rfl

/-- C9 counterexample: `calculate_deadline_score` reads the current clock,
so the same candidate list and the same profile produce different
`final_score`s when the clock has moved from day 70 to day 71 across the
30-days-remaining tier boundary (0.755 vs 0.735) — the engine does carry
hidden state, the wall clock. -/
theorem C9_counterexample :
    rank_universities parse_example 71 [u_example] ⟨none, none, none⟩ ≠
      rank_universities parse_example 70 [u_example] ⟨none, none, none⟩ := by
  rw [rank_eval_71, rank_eval_70]
  intro h
  have h2 : r_example_71 = r_example_70 := by
    have h1 : [r_example_71] = [r_example_70] := by
      injection h
    injection h1
  have h3 : (735 : ℚ)/1000 = 755/1000 := by
    have := congrArg RankedUniv.final_score h2
    simpa [r_example_71, r_example_70] using this
  norm_num at h3

/-- C9 (amended): for a fixed clock reading and date parser,
`rank_universities` is a pure function of the candidate list and profile;
re-running it on the already-ranked, unmodified output (same profile, same
clock) returns exactly the same records — every `final_score` unchanged and
the order preserved. Determinism across real invocations holds only when the
clock reading does not change. -/
theorem C9_rank_idempotent_fixed_clock (f : String → Option ℤ) (t : ℤ)
    (us : List Univ) (p : StudentProfile) (rs : List RankedUniv)
    (h : rank_universities f t us p = Except.ok rs) :
    rank_universities f t (rs.map RankedUniv.uni) p = Except.ok rs := by
  simp only [rank_universities] at h ⊢
  cases hsa : score_all f t (_calculate_student_strength p)
      (p.budget.getD 50000) us with
  | error e => rw [hsa] at h; exact Except.noConfusion h
  | ok scored =>
    rw [hsa] at h
    simp only [Except.ok.injEq] at h
    subst h
    have hmem : ∀ r ∈ scored.insertionSort byScoreDesc,
        score_university f t (_calculate_student_strength p)
          (p.budget.getD 50000) r.uni = Except.ok r := by
      intro r hr
      exact score_all_ok_mem f t _ _ us scored hsa r
        ((List.mem_insertionSort byScoreDesc).mp hr)
    have hall := score_all_map_uni f t (_calculate_student_strength p)
      (p.budget.getD 50000) (scored.insertionSort byScoreDesc) hmem
    rw [hall]
    show Except.ok ((scored.insertionSort byScoreDesc).insertionSort byScoreDesc) =
      Except.ok (scored.insertionSort byScoreDesc)
    rw [List.Sorted.insertionSort_eq (List.sorted_insertionSort byScoreDesc scored)]

/-- C9 witness: re-ranking the ranked singleton output of clock day 70
reproduces it exactly. -/
theorem C9_witness :
    rank_universities parse_example 70 (List.map RankedUniv.uni [r_example_70])
      ⟨none, none, none⟩ = Except.ok [r_example_70] :=
  C9_rank_idempotent_fixed_clock parse_example 70 [u_example]
    ⟨none, none, none⟩ [r_example_70] rank_eval_70
